import Mathlib

/-!
Verification of the signal lifecycle and scan-coordination core of the
`radar` terminal application (Go).  The Go source is shallowly embedded:

* `float64` values (distances, angles, persistence, wall-clock seconds)
  become `ℝ`; `int` fields become `ℤ`; slice lengths and counters become `ℕ`.
* `time.Time` / `time.Duration` values are modelled as real-valued seconds,
  matching the source which only ever uses `Sub(...).Seconds()`-style
  comparisons against second-valued constants.
* Calls to `math/rand` are modelled by passing the drawn random values as
  explicit parameters to the embedded function.
* The coordinator's goroutine structure is modelled by a labelled
  transition system (one step per mutex-protected region of the Go code).
* Go slice aliasing (relevant only to the defensive-copy property) is
  modelled by a small heap whose arrays are addressed by indices.

Namespace `Radar` mirrors package `radar`, namespace `Scanner` mirrors
package `radar/scanner`.
-/

open Classical

namespace Radar

/-- Mirrors `radar.PositionHistory` (signal.go): one recorded sample of a
signal's position. -/
structure PositionHistory where
  Distance : ℝ
  Angle : ℝ
  Timestamp : ℝ
  Strength : ℤ
  WasDetected : Bool

/-- Mirrors `radar.Signal` (signal.go).  `Type` is a reserved word in Lean,
so the Go field `Type` is rendered `Type_`; `tcell.Color` is opaque to the
core and rendered as a natural number code. -/
structure Signal where
  Type_ : String
  Icon : String
  Name : String
  Strength : ℤ
  Distance : ℝ
  Angle : ℝ
  Phase : ℕ
  Lifetime : ℝ
  Color : ℕ
  LastSeen : ℝ
  Persistence : ℝ
  History : List PositionHistory
  MaxHistory : ℕ

/-- The fields of `radar.Config` (config.go) consumed by the data/lifecycle
core (presentation-only fields such as grid spacing are omitted). -/
structure Config where
  RadarSpeed : ℝ
  MaxSignals : ℕ
  SignalLifetime : ℝ
  BeamWidth : ℝ
  MaxPhase : ℕ
  EnableHistory : Bool
  HistoryUpdateRate : ℝ
  EnableRealData : Bool
  ScanInterval : ℝ
  UseSimulatedData : Bool
  MaxScanRange : ℝ

/-- The core-relevant defaults from `radar.NewConfig` (config.go). -/
noncomputable def NewConfig : Config where
  RadarSpeed := Real.pi / 30
  MaxSignals := 8
  SignalLifetime := 30
  BeamWidth := Real.pi / 60
  MaxPhase := 8
  EnableHistory := true
  HistoryUpdateRate := 0.5
  EnableRealData := true
  ScanInterval := 8.0
  UseSimulatedData := true
  MaxScanRange := 1000.0

/-- Mirrors `maxFloat` used by the Go source (`math.Max` semantics on
non-NaN inputs). -/
noncomputable def maxFloat (a b : ℝ) : ℝ := max a b

/-- Mirrors `minFloat` (`math.Min` semantics on non-NaN inputs). -/
noncomputable def minFloat (a b : ℝ) : ℝ := min a b

/-- Mirrors `Display.angleWithinRadar` (display.go, lines 175-181):
```go
delta := math.Abs(angle - rd.radarAngle)
if delta > math.Pi { delta = 2*math.Pi - delta }
return delta < rd.config.BeamWidth
```
The receiver's `radarAngle` and `config.BeamWidth` are passed explicitly. -/
noncomputable def angleWithinRadar (radarAngle beamWidth angle : ℝ) : Prop :=
  (if |angle - radarAngle| > Real.pi
    then 2 * Real.pi - |angle - radarAngle|
    else |angle - radarAngle|) < beamWidth

/-- The random draws consumed by one iteration of the per-signal loop in
`Display.UpdatePhases`: `rand.Float64()` for the jitter roll and
`rand.Intn(21)` for the strength jitter. -/
structure TickRng where
  jitterRoll : ℝ
  jitterDelta : ℤ

/-- Mirrors the body of the per-signal loop of `Display.UpdatePhases`
(display.go, lines 73-93): phase advance, sweep check, illumination
refresh (with occasional strength jitter) or persistence decay. -/
noncomputable def updateSignalTick (cfg : Config) (radarAngle now : ℝ)
    (rng : TickRng) (s : Signal) : Signal :=
  let s1 : Signal := { s with Phase := (s.Phase + 1) % cfg.MaxPhase }
  if angleWithinRadar radarAngle cfg.BeamWidth s1.Angle then
    let s2 : Signal := { s1 with LastSeen := now, Persistence := 1.0 }
    if rng.jitterRoll < 0.1 then
      { s2 with Strength := max 10 (min 100 (s2.Strength + (rng.jitterDelta - 10))) }
    else s2
  else
    { s1 with
      Persistence := maxFloat 0.0 (1.0 - (now - s1.LastSeen) * (1.0 / 8.0)) }

/-- Mirrors `Signal.IsVisible` (signal.go): `s.Persistence > 0.1`. -/
def Signal.IsVisible (s : Signal) : Prop := s.Persistence > 0.1

/-- Mirrors the pruning pass of `Display.manageSignals` (display.go,
lines 109-118): keep a signal iff it is within its lifetime and still
visible. -/
noncomputable def manageSignalsActive (cfg : Config) (now : ℝ)
    (signals : List Signal) : List Signal :=
  signals.filter (fun s =>
    decide (now - s.Lifetime < cfg.SignalLifetime ∧ s.IsVisible))

/-- Mirrors `Signal.addToHistory` (signal.go, lines 92-107): append the new
sample, then drop the oldest entry if the history now exceeds
`MaxHistory`. -/
def Signal.addToHistory (s : Signal) (distance angle : ℝ) (strength : ℤ)
    (wasDetected : Bool) (timestamp : ℝ) : Signal :=
  let h := s.History ++ [⟨distance, angle, timestamp, strength, wasDetected⟩]
  { s with History := if h.length > s.MaxHistory then h.drop 1 else h }

/-- Iterated `addToHistory`: records each sample of `ps` in order, the
way repeated tick-driven `recordPosition` calls do. -/
def recordSamples (s : Signal) (ps : List PositionHistory) : Signal :=
  ps.foldl (fun t p =>
    t.addToHistory p.Distance p.Angle p.Strength p.WasDetected p.Timestamp) s

/-- The random draws consumed by one `Signal.updatePosition` call:
`rand.Float64()` for the movement roll and two further `rand.Float64()`
draws for the distance/angle deltas. -/
structure DriftRng where
  moveRoll : ℝ
  dDraw : ℝ
  aDraw : ℝ

/-- The Go `for`-loop angle normalisation at the end of
`Signal.updatePosition`: repeatedly add / subtract `2π` until the angle is
in `[0, 2π)`; extensionally this is reduction mod `2π`. -/
noncomputable def normalizeAngle (a : ℝ) : ℝ :=
  a - 2 * Real.pi * ⌊a / (2 * Real.pi)⌋

/-- Mirrors `Signal.updatePosition` (signal.go, lines 110-149): per-kind
stochastic drift, then `s.Distance = math.Max(1.0, math.Min(9.0, s.Distance))`
and angle normalisation.  Note the clamp constants `1.0` and `9.0` are
hard-coded in the source and do not come from the configuration. -/
noncomputable def Signal.updatePosition (s : Signal) (rng : DriftRng) : Signal :=
  let move : ℝ × ℝ :=
    if s.Type_ = "WiFi" ∨ s.Type_ = "Radio" ∨ s.Type_ = "IoT" then
      if rng.moveRoll < 0.05 then
        (s.Distance + (rng.dDraw - 0.5) * 0.2, s.Angle + (rng.aDraw - 0.5) * 0.1)
      else (s.Distance, s.Angle)
    else if s.Type_ = "Bluetooth" then
      if rng.moveRoll < 0.15 then
        (s.Distance + (rng.dDraw - 0.5) * 0.5, s.Angle + (rng.aDraw - 0.5) * 0.2)
      else (s.Distance, s.Angle)
    else if s.Type_ = "Cellular" then
      if rng.moveRoll < 0.25 then
        (s.Distance + (rng.dDraw - 0.5) * 0.8, s.Angle + (rng.aDraw - 0.5) * 0.3)
      else (s.Distance, s.Angle)
    else if s.Type_ = "Satellite" then
      if rng.moveRoll < 0.20 then
        (s.Distance + (rng.dDraw - 0.5) * 0.3, s.Angle + 0.05)
      else (s.Distance, s.Angle)
    else (s.Distance, s.Angle)
  { s with
    Distance := max 1.0 (min 9.0 move.1)
    Angle := normalizeAngle move.2 }

/-- Mirrors `RealDataCollector.rssiToDistance` (realdata.go, lines 514-519):
`min(10^((-rssi-30)/20) * 10, cfg.MaxScanRange)`. -/
noncomputable def rssiToDistance (cfg : Config) (rssi : ℤ) : ℝ :=
  min ((10 : ℝ) ^ (((-(rssi : ℝ)) - 30) / 20) * 10) cfg.MaxScanRange

/-- The mutable fields of `radar.RealDataCollector` (realdata.go). -/
structure CollectorState where
  lastScan : ℝ
  cachedSignals : List Signal

/-- The random draws consumed for one fallback signal in
`generateFallbackSignals`: `rand.Intn(51)`, two `rand.Float64()` draws and
`rand.Intn(4)`. -/
structure FallbackDraw where
  strengthDraw : ℤ
  distanceDraw : ℝ
  angleDraw : ℝ
  phaseDraw : ℕ

/-- tcell colour codes, opaque to the core. -/
def colorBlue : ℕ := 1

/-- tcell colour code for green. -/
def colorGreen : ℕ := 2

/-- One entry of the loop body of
`RealDataCollector.generateFallbackSignals` (realdata.go, lines 615-634). -/
noncomputable def fallbackSignal (type_ icon name : String) (color : ℕ)
    (now : ℝ) (d : FallbackDraw) : Signal :=
  let base : Signal :=
    { Type_ := type_
      Icon := icon
      Name := name
      Strength := d.strengthDraw + 50
      Distance := d.distanceDraw * 4 + 2
      Angle := d.angleDraw * 2 * Real.pi
      Phase := d.phaseDraw
      Lifetime := now
      Color := color
      LastSeen := now
      Persistence := 1.0
      History := []
      MaxHistory := 20 }
  base.addToHistory base.Distance base.Angle base.Strength true now

/-- Mirrors `RealDataCollector.generateFallbackSignals` (realdata.go,
lines 600-637): always produces the two placeholder signals
`Unknown-WiFi` and `Network-Activity`. -/
noncomputable def generateFallbackSignals (now : ℝ) (d₁ d₂ : FallbackDraw) :
    List Signal :=
  [fallbackSignal "WiFi" "≋" "Unknown-WiFi" colorBlue now d₁,
   fallbackSignal "Cellular" "▲" "Network-Activity" colorGreen now d₂]

/-- Mirrors `RealDataCollector.CollectRealSignals` (realdata.go,
lines 44-93).  The goroutine/`select` race against `time.After(1s)` is
modelled by `outcome`: `some signals` when the collection goroutine's
result wins the race within the 1-second budget, `none` when the timeout
fires first.  Returns the updated collector state and the returned slice. -/
noncomputable def CollectRealSignals (cfg : Config) (st : CollectorState)
    (now : ℝ) (outcome : Option (List Signal)) (d₁ d₂ : FallbackDraw) :
    CollectorState × List Signal :=
  if now - st.lastScan < cfg.ScanInterval then (st, st.cachedSignals)
  else
    let st1 : CollectorState := { st with lastScan := now }
    match outcome with
    | some signals => ({ st1 with cachedSignals := signals }, signals)
    | none =>
        if st1.cachedSignals.length > 0 then (st1, st1.cachedSignals)
        else if cfg.UseSimulatedData then
          ({ st1 with cachedSignals := generateFallbackSignals now d₁ d₂ },
            generateFallbackSignals now d₁ d₂)
        else (st1, [])

end Radar

namespace Scanner

/-- Mirrors `scanner.PositionHistory` (types.go of package scanner). -/
structure PositionHistory where
  Distance : ℝ
  Angle : ℝ
  Strength : ℤ
  Timestamp : ℝ
  IsReal : Bool

/-- Mirrors `scanner.Signal` (types.go of package scanner); `interface{}`
colour is rendered as a natural number code. -/
structure Signal where
  Type_ : String
  Icon : String
  Name : String
  Color : ℕ
  Strength : ℤ
  Distance : ℝ
  Angle : ℝ
  Phase : ℕ
  Lifetime : ℝ
  LastSeen : ℝ
  Persistence : ℝ
  History : List PositionHistory
  MaxHistory : ℕ

/-- Mirrors `scanner.Config` (types.go of package scanner). -/
structure Config where
  ScanInterval : ℝ
  MaxSignals : ℕ
  MaxScanRange : ℝ
  UseRealData : Bool
  EnableConsent : Bool

/-- The mutable fields of `scanner.Coordinator` (coordinator.go), plus a
ghost counter `outstanding` of `performBackgroundScan` goroutines in
flight (used to state the single-flight invariant). -/
structure CoState where
  lastScan : ℝ
  cachedSignals : List Signal
  isScanning : Bool
  outstanding : ℕ

/-- Mirrors `NewCoordinator` (coordinator.go, lines 20-26): zero time,
empty cache, not scanning, no goroutine in flight. -/
def CoState.init : CoState :=
  { lastScan := 0, cachedSignals := [], isScanning := false, outstanding := 0 }

/-- Mirrors the tail of `performBackgroundScan` (coordinator.go,
lines 130-133): head-truncation of the aggregate to `MaxSignals`. -/
def truncateSignals (maxSignals : ℕ) (l : List Signal) : List Signal :=
  if l.length > maxSignals then l.take maxSignals else l

/-- Observable labels of coordinator steps: a `Scan` call (with the time
of the call, the slice returned to the caller, and whether a background
goroutine was launched), the background goroutine's cache replacement,
and the background goroutine's deferred completion. -/
inductive CoLabel where
  | scanCall (now : ℝ) (ret : List Signal) (launched : Bool)
  | bgCacheWrite (signals : List Signal)
  | bgDone (now : ℝ)

/-- Labelled transition system of `Coordinator` (coordinator.go).  Each
constructor is one mutex-protected region of the Go code:

* `scanRateLimited` — `Scan`, lines 51-61: within `ScanInterval` of the
  last completed scan, return a copy of the cache, change nothing.
* `scanLaunch` — `Scan`, lines 64-75, `isScanning` false: set
  `isScanning`, launch one background goroutine, return the cache copy.
* `scanBusy` — `Scan`, lines 64-75, `isScanning` true: launch nothing,
  return the cache copy.
* `bgCacheWrite` — `performBackgroundScan`, lines 136-138: an in-flight
  goroutine atomically replaces the cache with its truncated aggregate.
* `bgDone` — the deferred block, lines 80-85: an in-flight goroutine
  completes, clearing `isScanning` and recording `lastScan`. -/
inductive CoStep (cfg : Config) : CoState → CoLabel → CoState → Prop where
  | scanRateLimited {s : CoState} {now : ℝ}
      (h : now - s.lastScan < cfg.ScanInterval) :
      CoStep cfg s (.scanCall now s.cachedSignals false) s
  | scanLaunch {s : CoState} {now : ℝ}
      (h : ¬ (now - s.lastScan < cfg.ScanInterval))
      (hidle : s.isScanning = false) :
      CoStep cfg s (.scanCall now s.cachedSignals true)
        { s with isScanning := true, outstanding := s.outstanding + 1 }
  | scanBusy {s : CoState} {now : ℝ}
      (h : ¬ (now - s.lastScan < cfg.ScanInterval))
      (hbusy : s.isScanning = true) :
      CoStep cfg s (.scanCall now s.cachedSignals false) s
  | bgCacheWrite {s : CoState} {signals : List Signal}
      (h : 1 ≤ s.outstanding) :
      CoStep cfg s (.bgCacheWrite signals)
        { s with cachedSignals := truncateSignals cfg.MaxSignals signals }
  | bgDone {s : CoState} {now : ℝ}
      (h : 1 ≤ s.outstanding) :
      CoStep cfg s (.bgDone now)
        { s with isScanning := false, lastScan := now,
                 outstanding := s.outstanding - 1 }

/-- States of the coordinator reachable from `NewCoordinator`'s state. -/
inductive Reachable (cfg : Config) : CoState → Prop where
  | init : Reachable cfg CoState.init
  | step {s : CoState} {l : CoLabel} {s' : CoState} :
      Reachable cfg s → CoStep cfg s l s' → Reachable cfg s'

/-!
Slice-aliasing model for the defensive-copy property.  In Go,
`signals := make([]Signal, len(c.cachedSignals)); copy(signals, c.cachedSignals)`
(coordinator.go, lines 70-75 and 142-149) allocates a fresh backing array
and copies the `Signal` struct values into it — but each `Signal` value
contains a `History []PositionHistory` slice header, so the copied structs
still point at the *same* history backing arrays as the coordinator's
cache.  We model backing arrays by indices into a heap.
-/

/-- A `scanner.Signal` as laid out in a `[]Signal` backing array: the
`History` field is a slice header, i.e. a reference (`HistoryRef`) to a
history backing array in the heap.  Scalar fields are value-copied. -/
structure SigMem where
  Name : String
  Strength : ℤ
  Distance : ℝ
  Angle : ℝ
  HistoryRef : ℕ

/-- The heap of backing arrays: `[]Signal` arrays and
`[]PositionHistory` arrays, addressed by index. -/
structure Heap where
  sigArrays : List (List SigMem)
  histArrays : List (List PositionHistory)

/-- Mirrors the copy in `Coordinator.Scan` / `GetCachedSignals`
(coordinator.go, lines 70-75 and 146-148): allocate a fresh `[]Signal`
array holding value-copies of the cached structs (same `HistoryRef`s) and
return its address. -/
def copyCachedSignals (h : Heap) (cacheRef : ℕ) : Heap × ℕ :=
  (⟨h.sigArrays ++ [h.sigArrays.getD cacheRef []], h.histArrays⟩,
    h.sigArrays.length)

/-- A caller mutation `slice[i] = v` on a `[]Signal` backing array. -/
def setSignal (h : Heap) (arr i : ℕ) (v : SigMem) : Heap :=
  ⟨h.sigArrays.set arr ((h.sigArrays.getD arr []).set i v), h.histArrays⟩

/-- A caller mutation `sig.History[j] = p` through a signal's history
slice header. -/
def setHistEntry (h : Heap) (ref j : ℕ) (p : PositionHistory) : Heap :=
  ⟨h.sigArrays, h.histArrays.set ref ((h.histArrays.getD ref []).set j p)⟩

/-- Fully dereference one stored signal: the struct value together with
the history array its slice header points at. -/
def derefSignal (h : Heap) (s : SigMem) : SigMem × List PositionHistory :=
  (s, h.histArrays.getD s.HistoryRef [])

/-- The coordinator's internal cached aggregate, fully dereferenced: what
the coordinator would observe of its own cache. -/
def cacheView (h : Heap) (cacheRef : ℕ) : List (SigMem × List PositionHistory) :=
  (h.sigArrays.getD cacheRef []).map (derefSignal h)

end Scanner

/-! ### Helper lemmas -/

/-- Shape of a tick on a signal the sweep does not currently illuminate:
only `Phase` and `Persistence` are rewritten. -/
theorem updateSignalTick_not_illum (cfg : Radar.Config) (ra now : ℝ)
    (rng : Radar.TickRng) (s : Radar.Signal)
    (h : ¬ Radar.angleWithinRadar ra cfg.BeamWidth s.Angle) :
    Radar.updateSignalTick cfg ra now rng s =
      { s with Phase := (s.Phase + 1) % cfg.MaxPhase,
               Persistence :=
                 Radar.maxFloat 0.0 (1.0 - (now - s.LastSeen) * (1.0 / 8.0)) } := by
  unfold Radar.updateSignalTick
  rw [if_neg h]

/-- Shape of a tick on an illuminated signal: `LastSeen` and `Persistence`
are refreshed (and the strength possibly jittered). -/
theorem updateSignalTick_illum_fields (cfg : Radar.Config) (ra now : ℝ)
    (rng : Radar.TickRng) (s : Radar.Signal)
    (h : Radar.angleWithinRadar ra cfg.BeamWidth s.Angle) :
    (Radar.updateSignalTick cfg ra now rng s).Persistence = 1.0 ∧
    (Radar.updateSignalTick cfg ra now rng s).LastSeen = now := by
  unfold Radar.updateSignalTick
  rw [if_pos h]
  by_cases hj : rng.jitterRoll < 0.1
  · rw [if_pos hj]; exact ⟨rfl, rfl⟩
  · rw [if_neg hj]; exact ⟨rfl, rfl⟩

/-- A signal at angle `1` is outside a `0.1`-wide beam pointing at `0`. -/
theorem not_angleWithinRadar_one : ¬ Radar.angleWithinRadar 0 0.1 1 := by
  have hpi := Real.pi_gt_three
  unfold Radar.angleWithinRadar
  have h1 : |(1 : ℝ) - 0| = 1 := by norm_num
  rw [h1, if_neg (by linarith : ¬ ((1 : ℝ) > Real.pi))]
  norm_num

/-- A signal at angle `0.05` is inside a `0.1`-wide beam pointing at `0`. -/
theorem angleWithinRadar_center : Radar.angleWithinRadar 0 0.1 0.05 := by
  have hpi := Real.pi_gt_three
  unfold Radar.angleWithinRadar
  have h1 : |(0.05 : ℝ) - 0| = 0.05 := by norm_num
  rw [h1, if_neg (by linarith : ¬ ((0.05 : ℝ) > Real.pi))]
  norm_num

/-- A signal at angle `π` is outside a `0.1`-wide beam pointing at `0`. -/
theorem not_angleWithinRadar_pi : ¬ Radar.angleWithinRadar 0 0.1 Real.pi := by
  have hpi := Real.pi_gt_three
  unfold Radar.angleWithinRadar
  have h1 : |Real.pi - 0| = Real.pi := by
    rw [sub_zero]; exact abs_of_nonneg Real.pi_pos.le
  rw [h1, if_neg (lt_irrefl Real.pi)]
  intro hlt
  linarith

/-- Concrete configuration used to evaluate the theorems: the defaults of
`NewConfig` with a `0.1`-radian beam. -/
noncomputable def testConfig : Radar.Config :=
  { RadarSpeed := 0.1, MaxSignals := 8, SignalLifetime := 30, BeamWidth := 0.1,
    MaxPhase := 8, EnableHistory := true, HistoryUpdateRate := 0.5,
    EnableRealData := true, ScanInterval := 8, UseSimulatedData := true,
    MaxScanRange := 1000 }

/-- Concrete signal used to evaluate the theorems. -/
noncomputable def testSignal (angle persistence lastSeen : ℝ) : Radar.Signal :=
  { Type_ := "WiFi", Icon := "≋", Name := "T", Strength := 50, Distance := 5,
    Angle := angle, Phase := 0, Lifetime := 0, Color := 1, LastSeen := lastSeen,
    Persistence := persistence, History := [], MaxHistory := 20 }

/-- Concrete random draws: no jitter (roll `0.5 ≥ 0.1`). -/
noncomputable def testRng : Radar.TickRng := { jitterRoll := 0.5, jitterDelta := 10 }

/-- Concrete signal with history capacity 2 for evaluating the history
ring-buffer behaviour. -/
noncomputable def histSignal : Radar.Signal :=
  { testSignal 0 1 0 with History := [], MaxHistory := 2 }

/-- A concrete position sample, distinguished by its timestamp. -/
noncomputable def samp (t : ℝ) : Radar.PositionHistory :=
  { Distance := 1, Angle := 0, Timestamp := t, Strength := 50, WasDetected := true }

/-- Concrete WiFi signal at distance 8 for evaluating the drift clamp. -/
noncomputable def driftSignal : Radar.Signal :=
  { testSignal 0 1 0 with Type_ := "WiFi", Distance := 8 }

/-- Concrete drift draws with movement roll `0.5` (no movement for any
signal kind). -/
noncomputable def driftRngStill : Radar.DriftRng :=
  { moveRoll := 0.5, dDraw := 0.5, aDraw := 0.5 }

/-- The test configuration with a configured maximum scan range of 5. -/
noncomputable def cfgSmallRange : Radar.Config :=
  { testConfig with MaxScanRange := 5 }

/-! ### C1 — illumination / persistence decay -/

/-- **C1.** In `Display.UpdatePhases`, an illuminated signal gets
`Persistence = 1.0` and `LastSeen = now`; otherwise
`Persistence = max(0, 1 - (now - LastSeen) * (1/8))`; consequently the
persistence of a signal that stays un-illuminated is non-increasing in
time and is exactly `0` once 8 seconds have elapsed since `LastSeen`. -/
theorem c1_persistence_decay :
    (∀ (cfg : Radar.Config) (ra now : ℝ) (rng : Radar.TickRng) (s : Radar.Signal),
        Radar.angleWithinRadar ra cfg.BeamWidth s.Angle →
        (Radar.updateSignalTick cfg ra now rng s).Persistence = 1.0 ∧
        (Radar.updateSignalTick cfg ra now rng s).LastSeen = now) ∧
    (∀ (cfg : Radar.Config) (ra now : ℝ) (rng : Radar.TickRng) (s : Radar.Signal),
        ¬ Radar.angleWithinRadar ra cfg.BeamWidth s.Angle →
        (Radar.updateSignalTick cfg ra now rng s).Persistence =
          Radar.maxFloat 0.0 (1.0 - (now - s.LastSeen) * (1.0 / 8.0))) ∧
    (∀ (cfg : Radar.Config) (ra₁ ra₂ now₁ now₂ : ℝ) (rng₁ rng₂ : Radar.TickRng)
        (s : Radar.Signal),
        ¬ Radar.angleWithinRadar ra₁ cfg.BeamWidth s.Angle →
        ¬ Radar.angleWithinRadar ra₂ cfg.BeamWidth
            (Radar.updateSignalTick cfg ra₁ now₁ rng₁ s).Angle →
        now₁ ≤ now₂ →
        (Radar.updateSignalTick cfg ra₂ now₂ rng₂
            (Radar.updateSignalTick cfg ra₁ now₁ rng₁ s)).Persistence ≤
          (Radar.updateSignalTick cfg ra₁ now₁ rng₁ s).Persistence) ∧
    (∀ (cfg : Radar.Config) (ra now : ℝ) (rng : Radar.TickRng) (s : Radar.Signal),
        ¬ Radar.angleWithinRadar ra cfg.BeamWidth s.Angle →
        8 ≤ now - s.LastSeen →
        (Radar.updateSignalTick cfg ra now rng s).Persistence = 0) := by
  refine ⟨?_, ?_, ?_, ?_⟩
  · intro cfg ra now rng s h
    exact updateSignalTick_illum_fields cfg ra now rng s h
  · intro cfg ra now rng s h
    rw [updateSignalTick_not_illum cfg ra now rng s h]
  · intro cfg ra₁ ra₂ now₁ now₂ rng₁ rng₂ s h₁ h₂ hle
    rw [updateSignalTick_not_illum cfg ra₁ now₁ rng₁ s h₁] at h₂ ⊢
    rw [updateSignalTick_not_illum cfg ra₂ now₂ rng₂ _ h₂]
    simp only [Radar.maxFloat]
    exact max_le_max le_rfl (by nlinarith)
  · intro cfg ra now rng s h h8
    rw [updateSignalTick_not_illum cfg ra now rng s h]
    simp only [Radar.maxFloat]
    have hle : (1.0 : ℝ) - (now - s.LastSeen) * (1.0 / 8.0) ≤ 0.0 := by nlinarith
    rw [max_eq_left hle]
    norm_num

/-- Evaluation of C1 at concrete inputs: a signal at angle `0.05`
illuminated by a sweep at `0` with beam `0.1` gets persistence `1`; an
un-illuminated signal whose last contact was 9 seconds ago has
persistence `0`. -/
theorem c1_persistence_decay_witness :
    (Radar.updateSignalTick testConfig 0 9 testRng (testSignal 0.05 1 0)).Persistence
        = 1.0 ∧
    (Radar.updateSignalTick testConfig 0 9 testRng (testSignal 1 1 0)).Persistence
        = 0 := by
  constructor
  · exact (c1_persistence_decay.1 testConfig 0 9 testRng (testSignal 0.05 1 0)
      angleWithinRadar_center).1
  · exact c1_persistence_decay.2.2.2 testConfig 0 9 testRng (testSignal 1 1 0)
      not_angleWithinRadar_one (by norm_num [testSignal])

/-! ### C7 — illumination condition is the shorter-arc angular distance -/

/-- **C7.** `angleWithinRadar` holds exactly when the shorter-arc distance
`min(|Δ|, 2π - |Δ|)` is below the beam width; concretely, with sweep `0`
and beam `0.1`, a tick illuminates a signal at angle `0.05` (persistence
becomes `1.0`), and a signal at angle `π` is not illuminated and its
persistence strictly decreases (provided it was positive and was last
computed by a decay at an earlier instant). -/
theorem c7_shorter_arc_illumination :
    (∀ ra bw a : ℝ,
        Radar.angleWithinRadar ra bw a ↔
          min |a - ra| (2 * Real.pi - |a - ra|) < bw) ∧
    (∀ (cfg : Radar.Config) (now : ℝ) (rng : Radar.TickRng) (s : Radar.Signal),
        cfg.BeamWidth = 0.1 → s.Angle = 0.05 →
        (Radar.updateSignalTick cfg 0 now rng s).Persistence = 1.0) ∧
    (∀ (cfg : Radar.Config) (now t₀ : ℝ) (rng : Radar.TickRng) (s : Radar.Signal),
        cfg.BeamWidth = 0.1 → s.Angle = Real.pi →
        s.Persistence = Radar.maxFloat 0.0 (1.0 - (t₀ - s.LastSeen) * (1.0 / 8.0)) →
        t₀ < now → 0 < s.Persistence →
        (Radar.updateSignalTick cfg 0 now rng s).Persistence < s.Persistence) := by
  refine ⟨?_, ?_, ?_⟩
  · intro ra bw a
    unfold Radar.angleWithinRadar
    by_cases h : |a - ra| > Real.pi
    · rw [if_pos h, min_eq_right (by linarith)]
    · rw [if_neg h, min_eq_left (by linarith [not_lt.mp h])]
  · intro cfg now rng s hbw hangle
    have hawr : Radar.angleWithinRadar 0 cfg.BeamWidth s.Angle := by
      rw [hbw, hangle]; exact angleWithinRadar_center
    exact (updateSignalTick_illum_fields cfg 0 now rng s hawr).1
  · intro cfg now t₀ rng s hbw hangle hpers ht h0
    have hawr : ¬ Radar.angleWithinRadar 0 cfg.BeamWidth s.Angle := by
      rw [hbw, hangle]; exact not_angleWithinRadar_pi
    rw [updateSignalTick_not_illum cfg 0 now rng s hawr]
    simp only [Radar.maxFloat] at hpers ⊢
    have hold : s.Persistence = 1.0 - (t₀ - s.LastSeen) * (1.0 / 8.0) := by
      rcases le_or_lt (1.0 - (t₀ - s.LastSeen) * (1.0 / 8.0)) (0.0 : ℝ) with hc | hc
      · exfalso
        rw [hpers, max_eq_left hc] at h0
        norm_num at h0
      · rw [hpers, max_eq_right hc.le]
    have hnew : (1.0 : ℝ) - (now - s.LastSeen) * (1.0 / 8.0) < s.Persistence := by
      rw [hold]; nlinarith
    have h0' : (0.0 : ℝ) < s.Persistence := by
      have hz : (0.0 : ℝ) = 0 := by norm_num
      rw [hz]; exact h0
    exact max_lt h0' hnew

/-- Evaluation of C7 at concrete inputs: sweep `0`, beam `0.1`, a signal
at `0.05` ends the tick with persistence `1.0`; a signal at `π` whose
persistence `0.875` was computed by decay at time `1` has strictly smaller
persistence after a tick at time `5`. -/
theorem c7_shorter_arc_illumination_witness :
    (Radar.updateSignalTick testConfig 0 5 testRng (testSignal 0.05 1 0)).Persistence
        = 1.0 ∧
    (Radar.updateSignalTick testConfig 0 5 testRng
        (testSignal Real.pi 0.875 0)).Persistence
      < (testSignal Real.pi 0.875 0).Persistence ∧
    Radar.angleWithinRadar 0 0.1 0.05 := by
  refine ⟨?_, ?_, ?_⟩
  · exact c7_shorter_arc_illumination.2.1 testConfig 5 testRng (testSignal 0.05 1 0)
      rfl rfl
  · refine c7_shorter_arc_illumination.2.2 testConfig 5 1 testRng
      (testSignal Real.pi 0.875 0) rfl rfl ?_ (by norm_num) (by norm_num [testSignal])
    show (0.875 : ℝ) = Radar.maxFloat 0.0 (1.0 - ((1 : ℝ) - 0) * (1.0 / 8.0))
    rw [Radar.maxFloat, max_eq_right (by norm_num)]
    norm_num
  · exact (c7_shorter_arc_illumination.1 0 0.1 0.05).mpr (by
      have : |(0.05 : ℝ) - 0| = 0.05 := by norm_num
      rw [this, min_eq_left (by linarith [Real.pi_gt_three])]
      norm_num)

/-! ### C10 — a tick changes only `Phase` and `Persistence` of an
un-illuminated signal -/

/-- **C10.** For a signal the sweep does not illuminate, the per-signal
tick update rewrites only `Phase` and `Persistence`; every other field
(`Strength`, `Distance`, `Angle`, `Type_`, `Icon`, `Name`, `Color`,
`Lifetime`, `LastSeen`, `History`, `MaxHistory`) is unchanged. -/
theorem c10_tick_frame (cfg : Radar.Config) (ra now : ℝ) (rng : Radar.TickRng)
    (s : Radar.Signal)
    (h : ¬ Radar.angleWithinRadar ra cfg.BeamWidth s.Angle) :
    (Radar.updateSignalTick cfg ra now rng s).Strength = s.Strength ∧
    (Radar.updateSignalTick cfg ra now rng s).Distance = s.Distance ∧
    (Radar.updateSignalTick cfg ra now rng s).Angle = s.Angle ∧
    (Radar.updateSignalTick cfg ra now rng s).Type_ = s.Type_ ∧
    (Radar.updateSignalTick cfg ra now rng s).Icon = s.Icon ∧
    (Radar.updateSignalTick cfg ra now rng s).Name = s.Name ∧
    (Radar.updateSignalTick cfg ra now rng s).Color = s.Color ∧
    (Radar.updateSignalTick cfg ra now rng s).Lifetime = s.Lifetime ∧
    (Radar.updateSignalTick cfg ra now rng s).LastSeen = s.LastSeen ∧
    (Radar.updateSignalTick cfg ra now rng s).History = s.History ∧
    (Radar.updateSignalTick cfg ra now rng s).MaxHistory = s.MaxHistory ∧
    (Radar.updateSignalTick cfg ra now rng s).Phase = (s.Phase + 1) % cfg.MaxPhase ∧
    (Radar.updateSignalTick cfg ra now rng s).Persistence =
      Radar.maxFloat 0.0 (1.0 - (now - s.LastSeen) * (1.0 / 8.0)) := by
  rw [updateSignalTick_not_illum cfg ra now rng s h]
  exact ⟨rfl, rfl, rfl, rfl, rfl, rfl, rfl, rfl, rfl, rfl, rfl, rfl, rfl⟩

/-- Evaluation of C10 at a concrete input: a tick on an un-illuminated
signal at angle `1` leaves its `Strength`, `Angle` and `History`
unchanged. -/
theorem c10_tick_frame_witness :
    (Radar.updateSignalTick testConfig 0 9 testRng (testSignal 1 1 0)).Strength
        = (testSignal 1 1 0).Strength ∧
    (Radar.updateSignalTick testConfig 0 9 testRng (testSignal 1 1 0)).Angle
        = (testSignal 1 1 0).Angle ∧
    (Radar.updateSignalTick testConfig 0 9 testRng (testSignal 1 1 0)).History
        = (testSignal 1 1 0).History := by
  have h := c10_tick_frame testConfig 0 9 testRng (testSignal 1 1 0)
    not_angleWithinRadar_one
  exact ⟨h.1, h.2.2.1, h.2.2.2.2.2.2.2.2.2.1⟩

/-! ### C5 — management-tick pruning condition -/

/-- **C5 (as claimed) is false**: a signal with persistence `0.05` is
neither expired (`age 0 < lifetime 30`) nor at `persistence ≤ 0`, yet the
management pass of `manageSignals` removes it, because the code's
retention test is `IsVisible`, i.e. `Persistence > 0.1`. -/
theorem c5_counterexample :
    ¬ (0 - (testSignal 0 0.05 0).Lifetime > testConfig.SignalLifetime ∨
        (testSignal 0 0.05 0).Persistence ≤ 0) ∧
    testSignal 0 0.05 0 ∉ Radar.manageSignalsActive testConfig 0 [testSignal 0 0.05 0] := by
  constructor
  · intro h
    rcases h with h | h
    · rw [testSignal, testConfig] at h; norm_num at h
    · rw [testSignal] at h; norm_num at h
  · intro hmem
    rw [Radar.manageSignalsActive, List.mem_filter] at hmem
    have hv := (of_decide_eq_true hmem.2).2
    rw [Radar.Signal.IsVisible, testSignal] at hv
    norm_num at hv

/-- **C5 (amended).** At a management tick, a signal is retained exactly
when `now - createdAt < signalLifetime` AND `persistence > 0.1`
(equivalently: removed when `now - createdAt ≥ signalLifetime` OR
`persistence ≤ 0.1`). -/
theorem c5_management_prune (cfg : Radar.Config) (now : ℝ)
    (signals : List Radar.Signal) (s : Radar.Signal) :
    s ∈ Radar.manageSignalsActive cfg now signals ↔
      s ∈ signals ∧ now - s.Lifetime < cfg.SignalLifetime ∧ s.Persistence > 0.1 := by
  rw [Radar.manageSignalsActive, List.mem_filter]
  constructor
  · rintro ⟨hm, hp⟩
    have h := of_decide_eq_true hp
    exact ⟨hm, h.1, h.2⟩
  · rintro ⟨hm, h1, h2⟩
    refine ⟨hm, decide_eq_true ?_⟩
    exact ⟨h1, h2⟩

/-! ### C6 — bounded history ring-buffer behaviour -/

/-- The pure effect of one `addToHistory` call on the history list. -/
def histStep (maxH : ℕ) (h : List Radar.PositionHistory)
    (p : Radar.PositionHistory) : List Radar.PositionHistory :=
  if (h ++ [p]).length > maxH then (h ++ [p]).drop 1 else h ++ [p]

/-- `addToHistory` applied to a sample's own fields re-records exactly
that sample. -/
theorem addToHistory_eta (t : Radar.Signal) (p : Radar.PositionHistory) :
    t.addToHistory p.Distance p.Angle p.Strength p.WasDetected p.Timestamp =
      { t with History := histStep t.MaxHistory t.History p } := rfl

/-- `recordSamples` only rewrites the history, by folding `histStep`. -/
theorem recordSamples_spec (s : Radar.Signal) (ps : List Radar.PositionHistory) :
    Radar.recordSamples s ps =
      { s with History := ps.foldl (histStep s.MaxHistory) s.History } := by
  induction ps generalizing s with
  | nil => rfl
  | cons p t ih =>
      rw [Radar.recordSamples, List.foldl_cons]
      have h1 : Radar.recordSamples
          (s.addToHistory p.Distance p.Angle p.Strength p.WasDetected p.Timestamp) t =
          Radar.recordSamples { s with History := histStep s.MaxHistory s.History p } t := by
        rw [addToHistory_eta]
      rw [show List.foldl
            (fun t p => t.addToHistory p.Distance p.Angle p.Strength p.WasDetected p.Timestamp)
            (s.addToHistory p.Distance p.Angle p.Strength p.WasDetected p.Timestamp) t =
          Radar.recordSamples
            (s.addToHistory p.Distance p.Angle p.Strength p.WasDetected p.Timestamp) t
          from rfl]
      rw [h1, ih]
      rfl

/-- Folding `histStep` from an empty history keeps the last `maxH`
recorded samples. -/
theorem foldl_histStep_nil (maxH : ℕ) (ps : List Radar.PositionHistory) :
    ps.foldl (histStep maxH) [] = ps.drop (ps.length - maxH) := by
  induction ps using List.reverseRecOn with
  | nil => simp
  | append_singleton ps p ih =>
      rw [List.foldl_append, List.foldl_cons, List.foldl_nil, ih, histStep]
      rcases lt_or_le ps.length maxH with hlt | hge
      · rw [if_neg (by
          simp only [List.length_append, List.length_drop, List.length_cons,
            List.length_nil]
          omega)]
        have h0 : ps.length - maxH = 0 := by omega
        have h1 : (ps ++ [p]).length - maxH = 0 := by
          simp only [List.length_append, List.length_cons, List.length_nil]
          omega
        rw [h0, h1, List.drop_zero, List.drop_zero]
      · have hlen : (ps.drop (ps.length - maxH)).length = maxH := by
          rw [List.length_drop]; omega
        rw [if_pos (by
          simp only [List.length_append, List.length_cons, List.length_nil, hlen]
          omega)]
        rcases Nat.eq_zero_or_pos maxH with hz | hpos
        · subst hz
          simp
        · have hlen1 : (ps ++ [p]).length - maxH = ps.length - maxH + 1 := by
            simp only [List.length_append, List.length_cons, List.length_nil]
            omega
          rw [hlen1]
          rw [List.drop_append_of_le_length
            (by omega : ps.length - maxH + 1 ≤ ps.length)]
          rw [List.drop_append_of_le_length
            (by rw [hlen]; omega : 1 ≤ (ps.drop (ps.length - maxH)).length)]
          rw [List.drop_drop]

/-- **C6.** One `addToHistory` keeps `History.length ≤ MaxHistory`
whenever it held before; starting from an empty history the bound holds
after any number of recordings, and after `MaxHistory + 1` recordings the
first recorded sample has been evicted while the most recent one is the
last element. -/
theorem c6_history_ring_buffer (s : Radar.Signal) (ps : List Radar.PositionHistory)
    (p0 : Radar.PositionHistory) (rest : List Radar.PositionHistory) :
    (∀ (d a : ℝ) (st : ℤ) (w : Bool) (ts : ℝ),
        s.History.length ≤ s.MaxHistory →
        (s.addToHistory d a st w ts).History.length ≤ s.MaxHistory) ∧
    (s.History = [] →
        (Radar.recordSamples s ps).History.length ≤ s.MaxHistory) ∧
    (s.History = [] → ps = p0 :: rest → ps.length = s.MaxHistory + 1 →
        1 ≤ s.MaxHistory → p0 ∉ rest →
        (Radar.recordSamples s ps).History = rest ∧
        p0 ∉ (Radar.recordSamples s ps).History ∧
        (Radar.recordSamples s ps).History.getLast? = ps.getLast?) := by
  refine ⟨?_, ?_, ?_⟩
  · intro d a st w ts hle
    rw [Radar.Signal.addToHistory]
    by_cases h :
      (s.History ++ [(⟨d, a, ts, st, w⟩ : Radar.PositionHistory)]).length > s.MaxHistory
    · rw [if_pos h]
      simp only [List.length_drop, List.length_append]
      simp at h ⊢
      omega
    · rw [if_neg h]
      simp at h ⊢
      omega
  · intro h0
    rw [recordSamples_spec]
    simp only [h0, foldl_histStep_nil, List.length_drop]
    omega
  · intro h0 hcons hlen hmax hnotin
    have hh : (Radar.recordSamples s ps).History = rest := by
      rw [recordSamples_spec]
      simp only [h0, foldl_histStep_nil, hlen]
      have hd1 : s.MaxHistory + 1 - s.MaxHistory = 1 := by omega
      rw [hd1, hcons, List.drop_one, List.tail_cons]
    refine ⟨hh, by rw [hh]; exact hnotin, ?_⟩
    rw [hh, hcons]
    have hne : rest ≠ [] := by
      intro hnil
      rw [hcons, hnil] at hlen
      simp at hlen
      omega
    rcases rest with _ | ⟨q, t⟩
    · exact absurd rfl hne
    · rw [List.getLast?_cons_cons]

/-- Evaluation of C6 at a concrete input: capacity 2, three recordings;
the first sample is evicted, the last two remain. -/
theorem c6_history_ring_buffer_witness :
    (Radar.recordSamples histSignal [samp 0, samp 1, samp 2]).History
        = [samp 1, samp 2] ∧
    samp 0 ∉ (Radar.recordSamples histSignal [samp 0, samp 1, samp 2]).History := by
  have h := (c6_history_ring_buffer histSignal [samp 0, samp 1, samp 2]
      (samp 0) [samp 1, samp 2]).2.2 rfl rfl rfl (by norm_num [histSignal])
      (by
        simp only [List.mem_cons, List.not_mem_nil, or_false]
        intro hor
        rcases hor with h' | h' <;>
          · rw [samp, samp] at h'
            have := congrArg Radar.PositionHistory.Timestamp h'
            norm_num at this)
  exact ⟨h.1, h.2.1⟩

/-! ### C9 — drift re-clamping -/

/-- **C9 (as claimed) is false**: `updatePosition` clamps the distance
into the fixed interval `[1.0, 9.0]`, not into the configured
`[minDistance, MaxScanRange]`.  With `MaxScanRange = 5`, a WiFi signal at
distance `8` that does not move (roll `0.5 ≥ 0.05`) still has distance
`8 > 5` after the drift step. -/
theorem c9_counterexample :
    ¬ ((driftSignal.updatePosition driftRngStill).Distance ≤
        cfgSmallRange.MaxScanRange) := by
  have hd : (driftSignal.updatePosition driftRngStill).Distance = 8 := by
    rw [Radar.Signal.updatePosition]
    simp only [driftSignal, driftRngStill, testSignal]
    norm_num
  rw [hd, cfgSmallRange]
  norm_num

/-- **C9 (amended).** After a drift step the distance is clamped into the
fixed interval `[1.0, 9.0]` hard-coded in `updatePosition` (independent of
the configuration); signal creation from scan data clamps the distance
above by the configured `MaxScanRange` (`rssiToDistance`), with no
configured lower bound. -/
theorem c9_drift_clamp (s : Radar.Signal) (rng : Radar.DriftRng)
    (cfg : Radar.Config) (rssi : ℤ) :
    1.0 ≤ (s.updatePosition rng).Distance ∧
    (s.updatePosition rng).Distance ≤ 9.0 ∧
    Radar.rssiToDistance cfg rssi ≤ cfg.MaxScanRange := by
  refine ⟨?_, ?_, ?_⟩
  · rw [Radar.Signal.updatePosition]
    exact le_max_left _ _
  · rw [Radar.Signal.updatePosition]
    exact max_le (by norm_num) (min_le_left _ _)
  · rw [Radar.rssiToDistance]
    exact min_le_right _ _

/-! ### C2 — at most one background aggregation in flight -/

/-- One coordinator step preserves the single-flight invariant. -/
theorem coStep_outstanding (cfg : Scanner.Config) {s : Scanner.CoState}
    {l : Scanner.CoLabel} {s' : Scanner.CoState}
    (hstep : Scanner.CoStep cfg s l s')
    (ih : s.outstanding = if s.isScanning = true then 1 else 0) :
    s'.outstanding = if s'.isScanning = true then 1 else 0 := by
  cases hstep with
  | scanRateLimited h => exact ih
  | scanBusy h hbusy => exact ih
  | scanLaunch h hidle =>
      rw [hidle] at ih
      simp at ih
      simp [ih]
  | bgCacheWrite h => exact ih
  | bgDone h =>
      cases hb : s.isScanning with
      | false => rw [hb] at ih; simp at ih; exfalso; omega
      | true => rw [hb] at ih; simp at ih; simp [ih]

/-- Inductive invariant: a reachable coordinator state has exactly one
background goroutine in flight when `isScanning` and none otherwise. -/
theorem reachable_outstanding (cfg : Scanner.Config) (s : Scanner.CoState)
    (h : Scanner.Reachable cfg s) :
    s.outstanding = if s.isScanning = true then 1 else 0 := by
  induction h with
  | init => rfl
  | step hr hstep ih => exact coStep_outstanding cfg hstep ih

/-- Concrete coordinator configuration for evaluating the theorems. -/
noncomputable def coCfg : Scanner.Config :=
  { ScanInterval := 8, MaxSignals := 8, MaxScanRange := 1000,
    UseRealData := true, EnableConsent := false }

/-- **C2.** In every reachable coordinator state, at most one background
aggregation goroutine is outstanding (`outstanding = 1` exactly when
`isScanning`); a `Scan` call launches a goroutine only from the idle
state; a `Scan` call made while one is outstanding returns the cached
aggregate, launches nothing and changes nothing; and the only step that
takes the coordinator from `Scanning` back to `Idle` is the completion of
the background aggregation. -/
theorem c2_single_flight (cfg : Scanner.Config) (s : Scanner.CoState)
    (h : Scanner.Reachable cfg s) :
    s.outstanding ≤ 1 ∧
    s.outstanding = (if s.isScanning = true then 1 else 0) ∧
    (∀ (now : ℝ) (ret : List Scanner.Signal) (s' : Scanner.CoState),
        Scanner.CoStep cfg s (.scanCall now ret true) s' →
        s.isScanning = false ∧ s'.isScanning = true ∧
        s'.outstanding = s.outstanding + 1) ∧
    (∀ (now : ℝ) (ret : List Scanner.Signal) (b : Bool) (s' : Scanner.CoState),
        s.isScanning = true → Scanner.CoStep cfg s (.scanCall now ret b) s' →
        ret = s.cachedSignals ∧ b = false ∧ s' = s) ∧
    (∀ (l : Scanner.CoLabel) (s' : Scanner.CoState),
        Scanner.CoStep cfg s l s' → s.isScanning = true → s'.isScanning = false →
        ∃ now : ℝ, l = Scanner.CoLabel.bgDone now) := by
  have hinv := reachable_outstanding cfg s h
  refine ⟨?_, hinv, ?_, ?_, ?_⟩
  · rw [hinv]; split <;> omega
  · intro now ret s' hstep
    cases hstep with
    | scanLaunch hrl hidle => exact ⟨hidle, rfl, rfl⟩
  · intro now ret b s' hscan hstep
    cases hstep with
    | scanRateLimited hrl => exact ⟨rfl, rfl, rfl⟩
    | scanLaunch hrl hidle => rw [hscan] at hidle; exact absurd hidle (by simp)
    | scanBusy hrl hbusy => exact ⟨rfl, rfl, rfl⟩
  · intro l s' hstep hscan hidle'
    cases hstep with
    | scanRateLimited hrl => rw [hscan] at hidle'; exact absurd hidle' (by simp)
    | scanLaunch hrl hidle => rw [hscan] at hidle; exact absurd hidle (by simp)
    | scanBusy hrl hbusy => rw [hscan] at hidle'; exact absurd hidle' (by simp)
    | bgCacheWrite hout => rw [hscan] at hidle'; exact absurd hidle' (by simp)
    | bgDone hout => exact ⟨_, rfl⟩

/-- Evaluation of C2 at a concrete input: the state reached from the
initial coordinator by one scan-launching call satisfies the
single-flight invariant. -/
theorem c2_single_flight_witness :
    ({ lastScan := 0, cachedSignals := [], isScanning := true, outstanding := 1 } :
        Scanner.CoState).outstanding ≤ 1 ∧
    ({ lastScan := 0, cachedSignals := [], isScanning := true, outstanding := 1 } :
        Scanner.CoState).outstanding =
      (if ({ lastScan := 0, cachedSignals := [], isScanning := true,
             outstanding := 1 } : Scanner.CoState).isScanning = true then 1 else 0) := by
  have hstep : Scanner.CoStep coCfg Scanner.CoState.init
      (Scanner.CoLabel.scanCall 10 Scanner.CoState.init.cachedSignals true)
      ({ lastScan := 0, cachedSignals := [], isScanning := true,
         outstanding := 1 } : Scanner.CoState) :=
    Scanner.CoStep.scanLaunch
      (by rw [Scanner.CoState.init, coCfg]; norm_num) rfl
  have hreach : Scanner.Reachable coCfg
      ({ lastScan := 0, cachedSignals := [], isScanning := true,
         outstanding := 1 } : Scanner.CoState) :=
    Scanner.Reachable.step Scanner.Reachable.init hstep
  have h := c2_single_flight coCfg _ hreach
  exact ⟨h.1, h.2.1⟩

/-! ### C3 — two rate-limited scans return identical cached results -/

/-- **C3.** Two consecutive `Scan` calls that are both rate limited
(`now - lastScan < ScanInterval` at each call) both return exactly the
cached aggregate, launch no background aggregation, and leave the
coordinator state unchanged; in particular the two returned collections
are identical. -/
theorem c3_rate_limited_scan_pair (cfg : Scanner.Config)
    (s s₁ s₂ : Scanner.CoState) (now₁ now₂ : ℝ)
    (ret₁ ret₂ : List Scanner.Signal) (b₁ b₂ : Bool)
    (h₁ : Scanner.CoStep cfg s (.scanCall now₁ ret₁ b₁) s₁)
    (hr₁ : now₁ - s.lastScan < cfg.ScanInterval)
    (h₂ : Scanner.CoStep cfg s₁ (.scanCall now₂ ret₂ b₂) s₂)
    (hr₂ : now₂ - s₁.lastScan < cfg.ScanInterval) :
    ret₁ = s.cachedSignals ∧ ret₂ = ret₁ ∧ b₁ = false ∧ b₂ = false ∧ s₂ = s := by
  cases h₁ with
  | scanLaunch h hidle => exact absurd hr₁ h
  | scanBusy h hbusy => exact absurd hr₁ h
  | scanRateLimited h =>
      cases h₂ with
      | scanLaunch h' hidle => exact absurd hr₂ h'
      | scanBusy h' hbusy => exact absurd hr₂ h'
      | scanRateLimited h' => exact ⟨rfl, rfl, rfl, rfl, rfl⟩

/-- A concrete non-empty cached aggregate for evaluating C3. -/
noncomputable def sigW : Scanner.Signal :=
  { Type_ := "WiFi", Icon := "≋", Name := "W", Color := 1, Strength := 50,
    Distance := 5, Angle := 0, Phase := 0, Lifetime := 0, LastSeen := 0,
    Persistence := 1, History := [], MaxHistory := 20 }

/-- A concrete idle coordinator state caching `[sigW]`. -/
noncomputable def coStateW : Scanner.CoState :=
  { lastScan := 0, cachedSignals := [sigW], isScanning := false, outstanding := 0 }

/-- Evaluation of C3 at a concrete input: two rate-limited calls at times
3 and 5 against a coordinator caching `[sigW]` both return `[sigW]` and
leave the state unchanged. -/
theorem c3_rate_limited_scan_pair_witness :
    ([sigW] : List Scanner.Signal) = coStateW.cachedSignals ∧
    ([sigW] : List Scanner.Signal) = [sigW] ∧ coStateW = coStateW := by
  have hstep₁ : Scanner.CoStep coCfg coStateW
      (Scanner.CoLabel.scanCall 3 [sigW] false) coStateW :=
    Scanner.CoStep.scanRateLimited (by rw [coStateW, coCfg]; norm_num)
  have hstep₂ : Scanner.CoStep coCfg coStateW
      (Scanner.CoLabel.scanCall 5 [sigW] false) coStateW :=
    Scanner.CoStep.scanRateLimited (by rw [coStateW, coCfg]; norm_num)
  have h := c3_rate_limited_scan_pair coCfg coStateW coStateW coStateW 3 5
    [sigW] [sigW] false false hstep₁ (by rw [coStateW, coCfg]; norm_num)
    hstep₂ (by rw [coStateW, coCfg]; norm_num)
  exact ⟨h.1, h.2.1, h.2.2.2.2⟩

/-! ### C4 — collector timeout fallback policy -/

/-- **C4.** When the 1-second collection race times out (`outcome = none`)
on a non-rate-limited `CollectRealSignals` call: a non-empty previous
cache is returned unchanged; with an empty cache and
`UseSimulatedData = true` the (always non-empty) deterministic fallback
set is returned and cached; with an empty cache and the fallback policy
disabled an empty set is returned.  The fallback set's identity
(types and names) is fixed, independent of the random draws. -/
theorem c4_collect_timeout (cfg : Radar.Config) (st : Radar.CollectorState)
    (now : ℝ) (d₁ d₂ : Radar.FallbackDraw)
    (hr : ¬ (now - st.lastScan < cfg.ScanInterval)) :
    (st.cachedSignals ≠ [] →
      Radar.CollectRealSignals cfg st now none d₁ d₂ =
        ({ lastScan := now, cachedSignals := st.cachedSignals }, st.cachedSignals)) ∧
    (st.cachedSignals = [] → cfg.UseSimulatedData = true →
      Radar.CollectRealSignals cfg st now none d₁ d₂ =
        ({ lastScan := now,
           cachedSignals := Radar.generateFallbackSignals now d₁ d₂ },
          Radar.generateFallbackSignals now d₁ d₂) ∧
      Radar.generateFallbackSignals now d₁ d₂ ≠ []) ∧
    (st.cachedSignals = [] → cfg.UseSimulatedData = false →
      Radar.CollectRealSignals cfg st now none d₁ d₂ =
        ({ lastScan := now, cachedSignals := st.cachedSignals }, [])) ∧
    (Radar.generateFallbackSignals now d₁ d₂).map (fun s => (s.Type_, s.Name)) =
      [("WiFi", "Unknown-WiFi"), ("Cellular", "Network-Activity")] := by
  refine ⟨?_, ?_, ?_, ?_⟩
  · intro hne
    rw [Radar.CollectRealSignals, if_neg hr]
    simp only []
    rw [if_pos (List.length_pos.mpr hne)]
  · intro hnil hsim
    refine ⟨?_, by simp [Radar.generateFallbackSignals]⟩
    rw [Radar.CollectRealSignals, if_neg hr]
    simp only []
    rw [if_neg (by simp [hnil]), if_pos hsim]
  · intro hnil hsim
    rw [Radar.CollectRealSignals, if_neg hr]
    simp only []
    rw [if_neg (by simp [hnil]), if_neg (by simp [hsim]), hnil]
  · rfl

/-- A concrete empty collector state. -/
noncomputable def collStateEmpty : Radar.CollectorState :=
  { lastScan := 0, cachedSignals := [] }

/-- Concrete random draws for the fallback generator. -/
noncomputable def fbDraw : Radar.FallbackDraw :=
  { strengthDraw := 0, distanceDraw := 0, angleDraw := 0, phaseDraw := 0 }

/-- Evaluation of C4 at a concrete input: a timed-out collection at time
10 against an empty cache with the simulated-fallback policy enabled
returns a non-empty result. -/
theorem c4_collect_timeout_witness :
    (Radar.CollectRealSignals testConfig collStateEmpty 10 none fbDraw fbDraw).2 ≠ [] := by
  have h := (c4_collect_timeout testConfig collStateEmpty 10 fbDraw fbDraw
    (by rw [collStateEmpty, testConfig]; norm_num)).2.1 rfl rfl
  rw [h.1]
  exact h.2

/-! ### C8 — returned collections as defensive copies -/

/-- A generic list fact: writing one array leaves the others unchanged. -/
theorem getD_set_ne {α : Type _} (l : List α) (i j : ℕ) (x d : α) (hne : i ≠ j) :
    (l.set i x).getD j d = l.getD j d := by
  induction l generalizing i j with
  | nil => simp
  | cons a t ih =>
      cases i with
      | zero =>
          cases j with
          | zero => exact absurd rfl hne
          | succ j => simp
      | succ i =>
          cases j with
          | zero => simp
          | succ j =>
              simp only [List.set_cons_succ, List.getD_cons_succ]
              exact ih i j (by omega)

/-- Concrete history entries distinguished by their `Distance`. -/
noncomputable def pos0 : Scanner.PositionHistory :=
  { Distance := 1, Angle := 0, Strength := 50, Timestamp := 0, IsReal := true }

/-- A second, different history entry. -/
noncomputable def pos1 : Scanner.PositionHistory :=
  { Distance := 2, Angle := 0, Strength := 50, Timestamp := 0, IsReal := true }

/-- A stored signal whose history slice header points at array `0`. -/
noncomputable def sigMem0 : Scanner.SigMem :=
  { Name := "X", Strength := 50, Distance := 1, Angle := 0, HistoryRef := 0 }

/-- A concrete heap: the cache is signal array `0`, holding one signal
whose history is history array `0`. -/
noncomputable def heap0 : Scanner.Heap :=
  { sigArrays := [[sigMem0]], histArrays := [[pos0]] }

/-- **C8 (as claimed) is false**: the copy handed out by
`Scan`/`GetCachedSignals` is a shallow copy — the signals' `History`
slice headers still reference the coordinator's own backing arrays, so a
caller writing through a returned signal's `History` changes the
coordinator's cached aggregate.  Concretely: after copying, the returned
slice is array `1`, its only signal's `HistoryRef` is `0`, and writing
`pos1` through it changes the internal cache view. -/
theorem c8_counterexample :
    (Scanner.copyCachedSignals heap0 0).2 = 1 ∧
    (((Scanner.copyCachedSignals heap0 0).1.sigArrays.getD 1 []).getD 0 sigMem0).HistoryRef
        = 0 ∧
    Scanner.cacheView
        (Scanner.setHistEntry (Scanner.copyCachedSignals heap0 0).1 0 0 pos1) 0 ≠
      Scanner.cacheView (Scanner.copyCachedSignals heap0 0).1 0 := by
  refine ⟨rfl, rfl, ?_⟩
  intro hEq
  simp [Scanner.cacheView, Scanner.setHistEntry, Scanner.copyCachedSignals,
    Scanner.derefSignal, heap0, sigMem0, pos0, pos1] at hEq

/-- **C8 (amended).** The returned collection's top-level slice is a
fresh array: overwriting any element of the returned slice leaves the
coordinator's cached aggregate (fully dereferenced) unchanged.  (The
signals' `History` backing arrays, however, are shared — see the
counterexample.) -/
theorem cacheView_mk (sa : List (List Scanner.SigMem))
    (ha : List (List Scanner.PositionHistory)) (r : ℕ) :
    Scanner.cacheView ⟨sa, ha⟩ r =
      (sa.getD r []).map (fun t => (t, ha.getD t.HistoryRef [])) := rfl

theorem c8_top_level_copy (h : Scanner.Heap) (cacheRef : ℕ)
    (hlt : cacheRef < h.sigArrays.length) (i : ℕ) (v : Scanner.SigMem) :
    Scanner.cacheView
        (Scanner.setSignal (Scanner.copyCachedSignals h cacheRef).1
          (Scanner.copyCachedSignals h cacheRef).2 i v) cacheRef =
      Scanner.cacheView (Scanner.copyCachedSignals h cacheRef).1 cacheRef := by
  simp only [Scanner.setSignal, Scanner.copyCachedSignals, cacheView_mk]
  rw [getD_set_ne _ _ _ _ _ (by omega : h.sigArrays.length ≠ cacheRef)]

/-- Evaluation of the amended C8 at a concrete input: overwriting slot 0
of the returned slice does not change the internal cache view. -/
theorem c8_top_level_copy_witness :
    Scanner.cacheView
        (Scanner.setSignal (Scanner.copyCachedSignals heap0 0).1
          (Scanner.copyCachedSignals heap0 0).2 0 sigMem0) 0 =
      Scanner.cacheView (Scanner.copyCachedSignals heap0 0).1 0 :=
  c8_top_level_copy heap0 0 (by rw [heap0]; norm_num) 0 sigMem0


